import Mathlib

/-!
Verification of the per-connection relay state machine of the Qwen Omni
realtime proxy.  The namespace `V11` embeds the improved server (the
unnamed source file, version 1.1.0); the namespace `V10` embeds the
original `src/server.js` (version 1.0.0) where a claim refers to it.

JSON parsing is performed by the Node runtime; it is modelled as an oracle
`parse : String → Option JsonMsg` supplied to each handler, where
`JsonMsg` records the one field (`type`) the program ever inspects, and
`none` models a `JSON.parse` exception.  Console logging is not modelled:
it is observable by neither peer.  `setTimeout` callbacks are modelled as
separate events (`configTimer`, `deferredSend`) that the single-threaded
runtime fires strictly after the handler that scheduled them returns.
A single representative clock value `now` is threaded through a run.
-/

/-- The `readyState` of a `ws` WebSocket. -/
inductive WsReadyState
  | CONNECTING
  | OPEN
  | CLOSING
  | CLOSED
  deriving DecidableEq, Repr

/-- The numeric `readyState` constant of the `ws` library. -/
def WsReadyState.toNum : WsReadyState → Nat
  | .CONNECTING => 0
  | .OPEN => 1
  | .CLOSING => 2
  | .CLOSED => 3

/-- A WebSocket frame payload: either a binary frame or a text frame. -/
inductive Payload
  | binary (bytes : List Nat)
  | text (s : String)
  deriving DecidableEq, Repr

/-- `data.toString()`: a text frame is already a string; a binary buffer is
decoded to a string (the decode itself is abstracted; what matters is that
the result is a text payload, no longer the original binary frame). -/
def Payload.toStr : Payload → String
  | .binary bs => String.mk (bs.map Char.ofNat)
  | .text s => s

/-- The result of a successful `JSON.parse`, restricted to the single
field the program reads: `message.type` (absent fields read `undefined`,
modelled as `none`). -/
structure JsonMsg where
  type : Option String
  deriving DecidableEq, Repr

/-- The `error` object of a proxy-originated error message.  `details`
and `readyState` are optional extra fields: `V10` populates them, `V11`
never does. -/
structure ErrObj where
  message : String
  code : String
  details : Option String
  readyState : Option Nat
  deriving DecidableEq, Repr

/-- A proxy-originated message to the client (as opposed to a relayed
upstream payload). -/
inductive ClientMsgShape
  | proxyConnected (message : String) (timestamp : Nat)
  | systemInfo (message : String)
  | errorMsg (e : ErrObj)
  deriving DecidableEq, Repr

/-- Observable side effects of a handler, in emission order. -/
inductive RelayAction
  | connectQwen
  | sendQwen (p : Payload)
  | sendClientRaw (p : Payload)
  | sendClientMsg (m : ClientMsgShape)
  | closeQwen
  | closeClient
  | scheduleConfigTimer
  | scheduleDeferredSend (p : Payload)
  | stopHeartbeat
  deriving DecidableEq, Repr

/-- The per-client-connection mutable state of the improved server:
`qwenWs` (null until a connect attempt, then its readyState),
`isQwenConnected`, `sessionConfigured`, `lastActivity`, `messageBuffer`,
plus the readyState of the client socket. -/
structure Session where
  qwenWs : Option WsReadyState
  isQwenConnected : Bool
  sessionConfigured : Bool
  lastActivity : Nat
  messageBuffer : List String
  clientReadyState : WsReadyState
  deriving DecidableEq, Repr

/-- The events that the handlers of a session react to. -/
inductive Event
  | qwenOpen
  | qwenMessage (data : Payload)
  | qwenError (err : String)
  | qwenClose
  | clientMessage (data : Payload)
  | clientClose
  | clientError
  | configTimer
  | deferredSend (data : Payload)
  | heartbeatTick
  deriving DecidableEq, Repr

/-- The hardcoded fallback API key of `process.env.QWEN_API_KEY || fallback`. -/
def fallbackKey : String := "sk-1c91f0e955a94c688c7992a724ceea18"

/-- `process.env.QWEN_API_KEY || fallback`: an absent or empty (falsy)
environment value selects the hardcoded fallback key. -/
def qwenApiKey (env : Option String) : String :=
  match env with
  | none => fallbackKey
  | some k => if k = "" then fallbackKey else k

/-- The outbound `Authorization` header value. -/
def authorizationHeader (env : Option String) : String :=
  "Bearer " ++ qwenApiKey env

/-- `pat` occurs at the start of `s` (on character lists). -/
def isPrefixChars : List Char → List Char → Bool
  | [], _ => true
  | _ :: _, [] => false
  | a :: as, b :: bs => decide (a = b) && isPrefixChars as bs

/-- `pat` occurs somewhere in `s` (on character lists). -/
def containsChars : List Char → List Char → Bool
  | [], pat => isPrefixChars pat []
  | a :: rest, pat => isPrefixChars pat (a :: rest) || containsChars rest pat

/-- JavaScript `s.includes(pat)`. -/
def containsSubstr (s pat : String) : Bool :=
  containsChars s.toList pat.toList

/-- `JSON.stringify(sessionConfig)` with `event_id: "event_" + Date.now()`
(identical object literal in both server versions). -/
def sessionConfigStr (now : Nat) : String :=
  "\x7b\"type\":\"session.update\",\"event_id\":\"event_" ++ toString now ++
    "\",\"session\":\x7b\"modalities\":[\"text\",\"audio\"],\"voice\":\"Ethan\"," ++
    "\"input_audio_format\":\"pcm16\",\"output_audio_format\":\"pcm16\"," ++
    "\"input_audio_transcription\":\x7b\"model\":\"gummy-realtime-v1\"\x7d," ++
    "\"turn_detection\":null\x7d\x7d"

namespace V11

/-- Error classification in the improved server handler `qwenWs.on("error")`. -/
def classifyError (err : String) : String :=
  if containsSubstr err "401" || containsSubstr err "Unauthorized" then
    "API密钥无效，请检查配置"
  else if containsSubstr err "403" then
    "API访问被拒绝，请检查权限"
  else if containsSubstr err "timeout" then
    "连接超时，请稍后重试"
  else
    "连接到AI服务时出现错误"

/-- `connectToQwen()`: replaces `qwenWs` with a fresh connecting socket. -/
def connectToQwen (s : Session) : Session × List RelayAction :=
  ({ s with qwenWs := some WsReadyState.CONNECTING }, [RelayAction.connectQwen])

/-- The `while (messageBuffer.length > 0) { shift; send }` drain loop:
pops from the head and transmits each payload in order. -/
def drainAll : List String → List RelayAction
  | [] => []
  | m :: rest => RelayAction.sendQwen (Payload.text m) :: drainAll rest

/-- `processBufferedMessages()`. -/
def processBufferedMessages (s : Session) : Session × List RelayAction :=
  if s.messageBuffer ≠ [] ∧ s.qwenWs = some WsReadyState.OPEN then
    ({ s with messageBuffer := [] }, drainAll s.messageBuffer)
  else (s, [])

/-- `qwenWs.on("open")`: mark connected, notify the client, schedule the
delayed session-configuration callback, then flush the buffer. -/
def qwenOpen (now : Nat) (s : Session) : Session × List RelayAction :=
  let s1 : Session := { s with qwenWs := some WsReadyState.OPEN, isQwenConnected := true }
  let notify : List RelayAction :=
    if s1.clientReadyState = WsReadyState.OPEN then
      [RelayAction.sendClientMsg (ClientMsgShape.proxyConnected "代理连接成功" now)]
    else []
  let r := processBufferedMessages s1
  (r.1, notify ++ [RelayAction.scheduleConfigTimer] ++ r.2)

/-- `qwenWs.on("message")`: update activity, try to parse, mark
`sessionConfigured` on a `session.updated` message, and forward the raw
data to the client whether or not the parse succeeded. -/
def qwenMessage (parse : String → Option JsonMsg) (now : Nat) (data : Payload)
    (s : Session) : Session × List RelayAction :=
  let s1 : Session := { s with lastActivity := now }
  let forward : List RelayAction :=
    if s1.clientReadyState = WsReadyState.OPEN then [RelayAction.sendClientRaw data] else []
  match parse data.toStr with
  | some msg =>
      if msg.type = some "session.updated" then
        ({ s1 with sessionConfigured := true }, forward)
      else (s1, forward)
  | none => (s1, forward)

/-- `qwenWs.on("error")`: clear `isQwenConnected` and send a classified
error message to the client. -/
def qwenError (err : String) (s : Session) : Session × List RelayAction :=
  let s1 : Session := { s with isQwenConnected := false }
  (s1,
    if s1.clientReadyState = WsReadyState.OPEN then
      [RelayAction.sendClientMsg (ClientMsgShape.errorMsg ⟨classifyError err, "QWEN_ERROR", none, none⟩)]
    else [])

/-- `qwenWs.on("close")`: clear both flags. -/
def qwenClose (s : Session) : Session × List RelayAction :=
  ({ s with qwenWs := some WsReadyState.CLOSED, isQwenConnected := false,
            sessionConfigured := false }, [])

/-- `configureSession()`: bail out if the upstream is not open, otherwise
send the session-configuration message (no `sessionConfigured` guard of
its own). -/
def configureSession (now : Nat) (s : Session) : Session × List RelayAction :=
  if s.qwenWs = some WsReadyState.OPEN then
    (s, [RelayAction.sendQwen (Payload.text (sessionConfigStr now))])
  else (s, [])

/-- The delayed callback scheduled by the open handler:
`if (qwenWs && qwenWs.readyState === OPEN && !sessionConfigured) configureSession()`. -/
def configTimerFire (now : Nat) (s : Session) : Session × List RelayAction :=
  if s.qwenWs = some WsReadyState.OPEN ∧ s.sessionConfigured = false then
    configureSession now s
  else (s, [])

/-- `clientWs.on("message")`: parse; on failure only log (drop); on
success either buffer (connecting first if never connected), defer while
the session is unconfigured, or forward directly. -/
def clientMessage (parse : String → Option JsonMsg) (now : Nat) (data : Payload)
    (s : Session) : Session × List RelayAction :=
  let s1 : Session := { s with lastActivity := now }
  match parse data.toStr with
  | none => (s1, [])
  | some msg =>
      if s1.qwenWs ≠ some WsReadyState.OPEN then
        let r1 := if s1.isQwenConnected = false then connectToQwen s1 else (s1, [])
        let s2 : Session := { r1.1 with messageBuffer := r1.1.messageBuffer ++ [data.toStr] }
        let notify : List RelayAction :=
          if s2.clientReadyState = WsReadyState.OPEN then
            [RelayAction.sendClientMsg (ClientMsgShape.systemInfo "正在建立AI连接，请稍候...")]
          else []
        (s2, r1.2 ++ notify)
      else if s1.sessionConfigured = false ∧ msg.type ≠ some "session.update" then
        (s1, [RelayAction.scheduleDeferredSend data])
      else
        (s1, [RelayAction.sendQwen data])

/-- `clientWs.on("close")`: close the upstream if open and clear the
buffer. -/
def clientClose (s : Session) : Session × List RelayAction :=
  let acts : List RelayAction :=
    if s.qwenWs = some WsReadyState.OPEN then [RelayAction.closeQwen] else []
  ({ s with clientReadyState := WsReadyState.CLOSED, messageBuffer := [] }, acts)

/-- `clientWs.on("error")`: close the upstream if open. -/
def clientError (s : Session) : Session × List RelayAction :=
  (s, if s.qwenWs = some WsReadyState.OPEN then [RelayAction.closeQwen] else [])

/-- The deferred-retry callback of the grace window: send if open. -/
def deferredSendFire (data : Payload) (s : Session) : Session × List RelayAction :=
  (s, if s.qwenWs = some WsReadyState.OPEN then [RelayAction.sendQwen data] else [])

/-- One tick of the 30-second heartbeat: inactivity teardown, else
reconnect when the client is open and the upstream is gone or closed. -/
def heartbeatTick (now : Nat) (s : Session) : Session × List RelayAction :=
  if now - s.lastActivity > 300000 then
    (s, [RelayAction.stopHeartbeat] ++
        (if s.qwenWs = some WsReadyState.OPEN then [RelayAction.closeQwen] else []) ++
        (if s.clientReadyState = WsReadyState.OPEN then [RelayAction.closeClient] else []))
  else if s.clientReadyState = WsReadyState.OPEN ∧
      (s.qwenWs = none ∨ s.qwenWs = some WsReadyState.CLOSED) then
    connectToQwen s
  else (s, [])

/-- Dispatch of one event to its handler. -/
def step (parse : String → Option JsonMsg) (now : Nat) (s : Session) :
    Event → Session × List RelayAction
  | Event.qwenOpen => qwenOpen now s
  | Event.qwenMessage d => qwenMessage parse now d s
  | Event.qwenError e => qwenError e s
  | Event.qwenClose => qwenClose s
  | Event.clientMessage d => clientMessage parse now d s
  | Event.clientClose => clientClose s
  | Event.clientError => clientError s
  | Event.configTimer => configTimerFire now s
  | Event.deferredSend d => deferredSendFire d s
  | Event.heartbeatTick => heartbeatTick now s

/-- Run a sequence of events, concatenating the emitted actions. -/
def runEvents (parse : String → Option JsonMsg) (now : Nat) :
    Session → List Event → Session × List RelayAction
  | s, [] => (s, [])
  | s, e :: es =>
      let r1 := step parse now s e
      let r2 := runEvents parse now r1.1 es
      (r2.1, r1.2 ++ r2.2)

end V11

/-- The payloads transmitted upstream, in order, within an action trace. -/
def qwenSends (acts : List RelayAction) : List Payload :=
  acts.filterMap fun a =>
    match a with
    | RelayAction.sendQwen p => some p
    | _ => none

/-- How many upstream connect attempts an action trace initiates. -/
def connectCount (acts : List RelayAction) : Nat :=
  (acts.filter fun a => decide (a = RelayAction.connectQwen)).length

/-- `a` is transmitted strictly before `b` in the trace `tr`. -/
def sentBefore (tr : List Payload) (a b : Payload) : Prop :=
  ∃ i j, i < j ∧ tr.get? i = some a ∧ tr.get? j = some b

namespace V10

/-- Error classification in the original server handler `qwenWs.on("error")`. -/
def classifyError (err : String) : String :=
  if containsSubstr err "401" || containsSubstr err "Unauthorized" then
    "API Key 无效或已过期，请检查API密钥"
  else if containsSubstr err "403" || containsSubstr err "Forbidden" then
    "API访问被拒绝，请检查API权限"
  else if containsSubstr err "timeout" || containsSubstr err "ETIMEDOUT" then
    "连接超时，请稍后重试"
  else
    "代理连接错误: " ++ err

/-- The error message the original server sends to the client: note the
extra `details` field carrying the raw internal error string. -/
def qwenErrorMsg (err : String) : ClientMsgShape :=
  ClientMsgShape.errorMsg ⟨classifyError err, "PROXY_ERROR", some err, none⟩

/-- The not-ready reply of the original server: note the extra `readyState`
field. -/
def notReadyMsg (readyState : Nat) : ClientMsgShape :=
  ClientMsgShape.errorMsg ⟨"Qwen API 连接未就绪，请稍后重试", "NOT_READY", none, some readyState⟩

/-- The open-handler flush loop of the original server:
`while (messageQueue.length > 0 && qwenWs.readyState === OPEN) { shift; send }`.
Returns the remaining queue and the sends, in order. -/
def drainQueue (rs : WsReadyState) : List String → List String × List RelayAction
  | [] => ([], [])
  | m :: rest =>
      if rs = WsReadyState.OPEN then
        let r := drainQueue rs rest
        (r.1, RelayAction.sendQwen (Payload.text m) :: r.2)
      else (m :: rest, [])

/-- The original server handler `clientWs.on("message")`: forward as received
when open, queue `data.toString()` while connecting, otherwise reply
not-ready. -/
def clientForward (rs : WsReadyState) (queue : List String) (data : Payload) :
    List String × List RelayAction :=
  if rs = WsReadyState.OPEN then (queue, [RelayAction.sendQwen data])
  else if rs = WsReadyState.CONNECTING then (queue ++ [data.toStr], [])
  else (queue, [RelayAction.sendClientMsg (notReadyMsg rs.toNum)])

end V10

/-- Modelled from the spec: the fixed shapes of proxy-originated client
messages (§6) — an error message carries exactly `message` and `code`,
with `code` in the allowed set and no additional fields. -/
def specShapeOk : ClientMsgShape → Bool
  | ClientMsgShape.proxyConnected _ _ => true
  | ClientMsgShape.systemInfo _ => true
  | ClientMsgShape.errorMsg e =>
      decide (e.details = none) && decide (e.readyState = none) &&
        (decide (e.code = "QWEN_ERROR") || decide (e.code = "NOT_READY") ||
          decide (e.code = "PROXY_ERROR"))

/-- A parse oracle on which every payload fails to parse. -/
def parseNever : String → Option JsonMsg := fun _ => none

/-- A parse oracle on which every payload parses to a typeless object. -/
def parsePlain : String → Option JsonMsg := fun _ => some ⟨none⟩

/-- A parse oracle recognising the upstream acknowledgment payload. -/
def parseAck : String → Option JsonMsg :=
  fun t => if t = "ack" then some ⟨some "session.updated"⟩ else some ⟨none⟩

/-- A session whose upstream socket is still connecting. -/
def sessConnecting : Session :=
  ⟨some WsReadyState.CONNECTING, false, false, 0, [], WsReadyState.OPEN⟩

/-- A session whose upstream is open but not yet configured. -/
def sessOpenUnconfigured : Session :=
  ⟨some WsReadyState.OPEN, true, false, 0, [], WsReadyState.OPEN⟩

/-- A session whose upstream is open and already configured. -/
def sessOpenConfigured : Session :=
  ⟨some WsReadyState.OPEN, true, true, 0, [], WsReadyState.OPEN⟩

/-- A session whose upstream socket is closed while the client stays open. -/
def sessClosedUpstream : Session :=
  ⟨some WsReadyState.CLOSED, false, false, 0, [], WsReadyState.OPEN⟩

/-- A still-connecting session holding one buffered payload. -/
def sessOpenBuffered : Session :=
  ⟨some WsReadyState.CONNECTING, true, false, 0, ["hello"], WsReadyState.OPEN⟩

/-- Does an event belong to the two code paths that can call `connectToQwen`? -/
def Event.isConnectSource : Event → Bool
  | Event.clientMessage _ => true
  | Event.heartbeatTick => true
  | _ => false

theorem runEvents_append (parse : String → Option JsonMsg) (now : Nat) (s : Session)
    (es1 es2 : List Event) :
    V11.runEvents parse now s (es1 ++ es2)
      = ((V11.runEvents parse now (V11.runEvents parse now s es1).1 es2).1,
         (V11.runEvents parse now s es1).2 ++
           (V11.runEvents parse now (V11.runEvents parse now s es1).1 es2).2) := by
  induction es1 generalizing s with
  | nil => simp [V11.runEvents]
  | cons e es ih => simp [V11.runEvents, ih]

theorem qwenSends_append (a b : List RelayAction) :
    qwenSends (a ++ b) = qwenSends a ++ qwenSends b := by
  simp [qwenSends, List.filterMap_append]

theorem qwenSends_drainAll (l : List String) :
    qwenSends (V11.drainAll l) = l.map Payload.text := by
  induction l with
  | nil => rfl
  | cons m rest ih => simp [V11.drainAll, qwenSends, List.filterMap_cons] at ih ⊢; exact ih

theorem qwenOpen_flush (now : Nat) (s : Session) :
    (V11.qwenOpen now s).1.messageBuffer = []
    ∧ qwenSends (V11.qwenOpen now s).2 = s.messageBuffer.map Payload.text
    ∧ (V11.qwenOpen now s).1.qwenWs = some WsReadyState.OPEN
    ∧ (V11.qwenOpen now s).1.sessionConfigured = s.sessionConfigured := by
  unfold V11.qwenOpen V11.processBufferedMessages
  by_cases hb : s.messageBuffer = []
  · by_cases hcl : s.clientReadyState = WsReadyState.OPEN <;>
      simp [hb, hcl, qwenSends, List.filterMap_cons]
  · by_cases hcl : s.clientReadyState = WsReadyState.OPEN <;>
      (simp [hb, hcl, qwenSends, List.filterMap_cons];
       exact qwenSends_drainAll s.messageBuffer)

theorem clientMessage_buffering (parse : String → Option JsonMsg) (now : Nat) (d : Payload)
    (s : Session) (hopen : s.qwenWs ≠ some WsReadyState.OPEN)
    (hparse : (parse (Payload.toStr d)).isSome = true) :
    (V11.clientMessage parse now d s).1.messageBuffer = s.messageBuffer ++ [d.toStr]
    ∧ (V11.clientMessage parse now d s).1.qwenWs ≠ some WsReadyState.OPEN
    ∧ qwenSends (V11.clientMessage parse now d s).2 = [] := by
  obtain ⟨m, hm⟩ := Option.isSome_iff_exists.mp hparse
  unfold V11.clientMessage
  rw [hm]
  by_cases hc : s.isQwenConnected = false <;>
    by_cases hcl : s.clientReadyState = WsReadyState.OPEN <;>
      simp [hopen, hc, hcl, V11.connectToQwen, qwenSends, List.filterMap_cons]

theorem runClientMessages_buffering (parse : String → Option JsonMsg) (now : Nat)
    (datas : List Payload) (s : Session) (hopen : s.qwenWs ≠ some WsReadyState.OPEN)
    (hparse : ∀ d ∈ datas, (parse (Payload.toStr d)).isSome = true) :
    (V11.runEvents parse now s (datas.map Event.clientMessage)).1.messageBuffer
        = s.messageBuffer ++ datas.map Payload.toStr
    ∧ (V11.runEvents parse now s (datas.map Event.clientMessage)).1.qwenWs
        ≠ some WsReadyState.OPEN
    ∧ qwenSends (V11.runEvents parse now s (datas.map Event.clientMessage)).2 = [] := by
  induction datas generalizing s with
  | nil => simpa [V11.runEvents, qwenSends] using hopen
  | cons d rest ih =>
      have hd : (parse (Payload.toStr d)).isSome = true := hparse d (by simp)
      have h1 := clientMessage_buffering parse now d s hopen hd
      have h2 := ih (V11.clientMessage parse now d s).1 h1.2.1
        (fun x hx => hparse x (by simp [hx]))
      simp only [List.map_cons, V11.runEvents, V11.step]
      refine ⟨?_, h2.2.1, ?_⟩
      · rw [h2.1, h1.1]; simp
      · rw [qwenSends_append, h1.2.2, h2.2.2]; rfl

theorem v10_drainQueue_open (l : List String) :
    V10.drainQueue WsReadyState.OPEN l
      = ([], l.map fun m => RelayAction.sendQwen (Payload.text m)) := by
  induction l with
  | nil => rfl
  | cons m rest ih => simp [V10.drainQueue, ih]

theorem qwenOpen_sessionConfigured (now : Nat) (s : Session) :
    (V11.qwenOpen now s).1.sessionConfigured = s.sessionConfigured :=
  (qwenOpen_flush now s).2.2.2

theorem clientMessage_sessionConfigured (parse : String → Option JsonMsg) (now : Nat)
    (d : Payload) (s : Session) :
    (V11.clientMessage parse now d s).1.sessionConfigured = s.sessionConfigured := by
  unfold V11.clientMessage
  cases hp : parse (Payload.toStr d) with
  | none => rfl
  | some m =>
      by_cases hw : s.qwenWs ≠ some WsReadyState.OPEN <;>
        by_cases hc : s.isQwenConnected = false <;>
          simp [hw, hc, V11.connectToQwen]
      all_goals split <;> rfl

theorem configTimerFire_sessionConfigured (now : Nat) (s : Session) :
    (V11.configTimerFire now s).1.sessionConfigured = s.sessionConfigured := by
  unfold V11.configTimerFire V11.configureSession
  split
  · split <;> rfl
  · rfl

theorem heartbeatTick_sessionConfigured (now : Nat) (s : Session) :
    (V11.heartbeatTick now s).1.sessionConfigured = s.sessionConfigured := by
  unfold V11.heartbeatTick V11.connectToQwen
  split
  · rfl
  · split <;> rfl

/-- C3: `sessionConfigured` becomes true only on receiving an inbound
upstream message whose parsed type is `"session.updated"`, never as a
consequence of sending the configuration message; and whenever the
configuration callback emits anything (in particular the `session.update`
send), `sessionConfigured` is still false at that moment. -/
theorem sessionConfigured_ack_gated (parse : String → Option JsonMsg) (now : Nat)
    (s : Session) :
    (∀ e : Event, s.sessionConfigured = false →
        (V11.step parse now s e).1.sessionConfigured = true →
        ∃ d m, e = Event.qwenMessage d ∧ parse (Payload.toStr d) = some m ∧
          m.type = some "session.updated")
    ∧ ((V11.step parse now s Event.configTimer).2 ≠ [] → s.sessionConfigured = false) := by
  constructor
  · intro e hsc hsc2
    cases e with
    | qwenOpen =>
        rw [V11.step, qwenOpen_sessionConfigured] at hsc2
        rw [hsc] at hsc2; exact absurd hsc2 (by simp)
    | qwenMessage d =>
        refine ⟨d, ?_⟩
        rw [V11.step] at hsc2
        unfold V11.qwenMessage at hsc2
        cases hp : parse (Payload.toStr d) with
        | none => rw [hp] at hsc2; simp at hsc2; rw [hsc] at hsc2; exact absurd hsc2 (by simp)
        | some m =>
            rw [hp] at hsc2
            by_cases ht : m.type = some "session.updated"
            · exact ⟨m, rfl, rfl, ht⟩
            · simp [ht] at hsc2; rw [hsc] at hsc2; exact absurd hsc2 (by simp)
    | qwenError err =>
        rw [V11.step] at hsc2
        unfold V11.qwenError at hsc2
        simp at hsc2; rw [hsc] at hsc2; exact absurd hsc2 (by simp)
    | qwenClose =>
        rw [V11.step] at hsc2
        unfold V11.qwenClose at hsc2
        simp at hsc2
    | clientMessage d =>
        rw [V11.step, clientMessage_sessionConfigured] at hsc2
        rw [hsc] at hsc2; exact absurd hsc2 (by simp)
    | clientClose =>
        rw [V11.step] at hsc2
        unfold V11.clientClose at hsc2
        simp at hsc2; rw [hsc] at hsc2; exact absurd hsc2 (by simp)
    | clientError =>
        rw [V11.step] at hsc2
        unfold V11.clientError at hsc2
        simp at hsc2; rw [hsc] at hsc2; exact absurd hsc2 (by simp)
    | configTimer =>
        rw [V11.step, configTimerFire_sessionConfigured] at hsc2
        rw [hsc] at hsc2; exact absurd hsc2 (by simp)
    | deferredSend d =>
        rw [V11.step] at hsc2
        unfold V11.deferredSendFire at hsc2
        simp at hsc2; rw [hsc] at hsc2; exact absurd hsc2 (by simp)
    | heartbeatTick =>
        rw [V11.step, heartbeatTick_sessionConfigured] at hsc2
        rw [hsc] at hsc2; exact absurd hsc2 (by simp)
  · intro hne
    by_contra hsc
    rw [Bool.not_eq_false] at hsc
    apply hne
    simp [V11.step, V11.configTimerFire, hsc]

/-- C3 witness: at a concrete open-but-unconfigured session, the only
event that raises `sessionConfigured` is the upstream acknowledgment. -/
theorem sessionConfigured_ack_gated_witness :
    ∃ d m, Event.qwenMessage (Payload.text "ack") = Event.qwenMessage d ∧
      parseAck (Payload.toStr d) = some m ∧ m.type = some "session.updated" :=
  (sessionConfigured_ack_gated parseAck 0 sessOpenUnconfigured).1
    (Event.qwenMessage (Payload.text "ack")) rfl (by decide)

/-- C4 counterexample: `configureSession` is not idempotent per upstream
connection instance — invoked with `sessionConfigured` already true on an
open connection, it is not a no-op but sends the `session.update` message
again; two invocations while open transmit two messages. -/
theorem configureSession_not_idempotent :
    sessOpenConfigured.sessionConfigured = true
    ∧ (V11.configureSession 3 sessOpenConfigured).2
        = [RelayAction.sendQwen (Payload.text (sessionConfigStr 3))]
    ∧ ((V11.configureSession 3 sessOpenConfigured).2 ++
        (V11.configureSession 4 (V11.configureSession 3 sessOpenConfigured).1).2).length
        = 2 :=
  ⟨rfl, rfl, rfl⟩

/-- C4 (amended): the at-most-once behaviour belongs to the delayed
configuration callback, the sole call site of `configureSession`, which is a
no-op when `sessionConfigured` is already true and never emits more than
one action; `configureSession` itself sends unconditionally whenever the
upstream connection is open. -/
theorem config_callback_guarded (parse : String → Option JsonMsg) (now : Nat) (s : Session) :
    (s.sessionConfigured = true → (V11.step parse now s Event.configTimer).2 = [])
    ∧ (V11.step parse now s Event.configTimer).2.length ≤ 1
    ∧ (s.qwenWs = some WsReadyState.OPEN →
        (V11.configureSession now s).2
          = [RelayAction.sendQwen (Payload.text (sessionConfigStr now))]) := by
  refine ⟨?_, ?_, ?_⟩
  · intro h; simp [V11.step, V11.configTimerFire, h]
  · simp only [V11.step, V11.configTimerFire, V11.configureSession]
    split
    · split <;> simp
    · simp
  · intro h; simp [V11.configureSession, h]

/-- C4 witness: concrete instances of the callback no-op and of the
unconditional send. -/
theorem config_callback_guarded_witness :
    (V11.step parsePlain 0 sessOpenConfigured Event.configTimer).2 = []
    ∧ (V11.configureSession 0 sessOpenConfigured).2
        = [RelayAction.sendQwen (Payload.text (sessionConfigStr 0))] :=
  ⟨(config_callback_guarded parsePlain 0 sessOpenConfigured).1 rfl,
   (config_callback_guarded parsePlain 0 sessOpenConfigured).2.2 rfl⟩

/-- C6 counterexample: with the credential environment variable absent, a
hardcoded non-empty fallback key is attached to the Authorization header,
so upstream connect attempts are not credential-less guaranteed
authentication failures. -/
theorem absent_credential_fallback_attached :
    qwenApiKey none ≠ "" ∧ qwenApiKey none = fallbackKey
    ∧ authorizationHeader none = "Bearer " ++ fallbackKey :=
  ⟨by decide, rfl, rfl⟩

/-- C6 (amended): startup never fails on a missing credential — an absent
or empty environment value silently selects the hardcoded fallback key,
and the attached key is never empty. -/
theorem startup_key_nonempty (env : Option String) :
    qwenApiKey env ≠ ""
    ∧ ((env = none ∨ env = some "") → authorizationHeader env = "Bearer " ++ fallbackKey) := by
  constructor
  · cases env with
    | none => decide
    | some k =>
        by_cases hk : k = ""
        · simp [qwenApiKey, hk]; decide
        · simp [qwenApiKey, hk]
  · rintro (rfl | rfl) <;> rfl

/-- C6 witness: the empty-string (falsy) environment value also selects
the fallback key. -/
theorem startup_key_nonempty_witness :
    qwenApiKey (some "") ≠ ""
    ∧ authorizationHeader (some "") = "Bearer " ++ fallbackKey :=
  ⟨(startup_key_nonempty (some "")).1, (startup_key_nonempty (some "")).2 (Or.inr rfl)⟩

/-- C7 counterexample: a malformed client payload (one on which
`JSON.parse` throws) is dropped by the client-message handler — nothing is
sent upstream, nothing is buffered — rather than forwarded upstream. -/
theorem malformed_client_payload_dropped :
    (V11.step parseNever 5 sessOpenConfigured
        (Event.clientMessage (Payload.text "\x7boops"))).2 = []
    ∧ (V11.step parseNever 5 sessOpenConfigured
        (Event.clientMessage (Payload.text "\x7boops"))).1.messageBuffer
        = sessOpenConfigured.messageBuffer :=
  ⟨rfl, rfl⟩

/-- C7 (amended): the pass-through-on-failure policy holds only for the
upstream-to-client direction — an inbound upstream payload that fails to
parse is still forwarded raw to the client — while a client payload that
fails to parse is dropped (the handler only updates `lastActivity`). -/
theorem parse_failure_asymmetry (parse : String → Option JsonMsg) (now : Nat) (d : Payload)
    (s : Session) (hfail : parse (Payload.toStr d) = none) :
    (V11.step parse now s (Event.qwenMessage d)).2
      = (if s.clientReadyState = WsReadyState.OPEN then [RelayAction.sendClientRaw d] else [])
    ∧ (V11.step parse now s (Event.clientMessage d)).2 = []
    ∧ (V11.step parse now s (Event.clientMessage d)).1 = { s with lastActivity := now } := by
  refine ⟨?_, ?_, ?_⟩ <;> simp [V11.step, V11.qwenMessage, V11.clientMessage, hfail]

/-- C7 witness: concrete unparseable traffic in both directions. -/
theorem parse_failure_asymmetry_witness :
    (V11.step parseNever 1 sessConnecting (Event.qwenMessage (Payload.text "bad"))).2
      = (if sessConnecting.clientReadyState = WsReadyState.OPEN then
          [RelayAction.sendClientRaw (Payload.text "bad")] else [])
    ∧ (V11.step parseNever 1 sessConnecting (Event.clientMessage (Payload.text "bad"))).2 = []
    ∧ (V11.step parseNever 1 sessConnecting (Event.clientMessage (Payload.text "bad"))).1
        = { sessConnecting with lastActivity := 1 } :=
  parse_failure_asymmetry parseNever 1 (Payload.text "bad") sessConnecting rfl

/-- C8 counterexample: an upstream error event clears `isQwenConnected`
but leaves `sessionConfigured` set, contradicting the claim that both
flags are cleared on every error event. -/
theorem error_event_keeps_sessionConfigured :
    (V11.step parsePlain 0 sessOpenConfigured (Event.qwenError "boom")).1.sessionConfigured
      = true
    ∧ (V11.step parsePlain 0 sessOpenConfigured
        (Event.qwenError "boom")).1.isQwenConnected = false :=
  ⟨rfl, rfl⟩

/-- C8 (amended): an upstream close event clears both `isQwenConnected`
and `sessionConfigured`; an upstream error event clears only
`isQwenConnected` and leaves `sessionConfigured` unchanged. -/
theorem close_and_error_flag_clearing (parse : String → Option JsonMsg) (now : Nat)
    (err : String) (s : Session) :
    ((V11.step parse now s Event.qwenClose).1.isQwenConnected = false
      ∧ (V11.step parse now s Event.qwenClose).1.sessionConfigured = false)
    ∧ ((V11.step parse now s (Event.qwenError err)).1.isQwenConnected = false
      ∧ (V11.step parse now s (Event.qwenError err)).1.sessionConfigured
          = s.sessionConfigured) :=
  ⟨⟨rfl, rfl⟩, ⟨rfl, rfl⟩⟩

/-- C1 (amended): every sequence of well-formed (parseable) client
messages arriving while the upstream connection is not open is appended to
the pending buffer in arrival order as its string coercion, nothing is
transmitted upstream meanwhile, and at upstream-open the drain transmits
the whole buffer in exactly that order, each payload exactly once, leaving
the buffer empty; the flush loop of the original server likewise drains the
queue of an open connection completely, in order.  (Unparseable client payloads are
dropped, not buffered — see the counterexample.) -/
theorem buffered_messages_fifo (parse : String → Option JsonMsg) (now : Nat)
    (datas : List Payload) (s : Session)
    (hopen : s.qwenWs ≠ some WsReadyState.OPEN)
    (hparse : ∀ d ∈ datas, (parse (Payload.toStr d)).isSome = true) :
    qwenSends (V11.runEvents parse now s
        (datas.map Event.clientMessage ++ [Event.qwenOpen])).2
      = (s.messageBuffer ++ datas.map Payload.toStr).map Payload.text
    ∧ (V11.runEvents parse now s
        (datas.map Event.clientMessage ++ [Event.qwenOpen])).1.messageBuffer = []
    ∧ V10.drainQueue WsReadyState.OPEN s.messageBuffer
      = ([], s.messageBuffer.map fun m => RelayAction.sendQwen (Payload.text m)) := by
  have hrun := runClientMessages_buffering parse now datas s hopen hparse
  have hflush :=
    qwenOpen_flush now (V11.runEvents parse now s (datas.map Event.clientMessage)).1
  rw [runEvents_append]
  refine ⟨?_, ?_, v10_drainQueue_open s.messageBuffer⟩
  · rw [qwenSends_append, hrun.2.2]
    simp only [V11.runEvents, V11.step, List.append_nil, List.nil_append]
    rw [hflush.2.1, hrun.1, List.map_append]
  · simp only [V11.runEvents, V11.step]
    exact hflush.1

/-- C1 counterexample: a client message on which `JSON.parse` throws,
arriving while the upstream is still connecting, is never appended to the
pending buffer and is never transmitted upstream after open — it is lost,
so the universally quantified no-loss property of the claim fails. -/
theorem unparseable_message_lost :
    ¬ (V11.step parseNever 0 sessConnecting
        (Event.clientMessage (Payload.text "oops"))).1.messageBuffer = ["oops"]
    ∧ (V11.runEvents parseNever 0 sessConnecting
        [Event.clientMessage (Payload.text "oops"), Event.qwenOpen]).1.messageBuffer = []
    ∧ qwenSends (V11.runEvents parseNever 0 sessConnecting
        [Event.clientMessage (Payload.text "oops"), Event.qwenOpen]).2 = []
    ∧ Payload.toStr (Payload.text "oops") = "oops" :=
  ⟨by decide, rfl, rfl, rfl⟩

/-- C1 witness: two buffered messages are flushed upstream in arrival
order at open, exactly once, and the buffer ends empty. -/
theorem buffered_messages_fifo_witness :
    qwenSends (V11.runEvents parsePlain 0 sessConnecting
        ([Payload.text "a", Payload.text "b"].map Event.clientMessage
          ++ [Event.qwenOpen])).2
      = (sessConnecting.messageBuffer
          ++ [Payload.text "a", Payload.text "b"].map Payload.toStr).map Payload.text
    ∧ (V11.runEvents parsePlain 0 sessConnecting
        ([Payload.text "a", Payload.text "b"].map Event.clientMessage
          ++ [Event.qwenOpen])).1.messageBuffer = []
    ∧ V10.drainQueue WsReadyState.OPEN sessConnecting.messageBuffer
      = ([], sessConnecting.messageBuffer.map fun m =>
          RelayAction.sendQwen (Payload.text m)) :=
  buffered_messages_fifo parsePlain 0 [Payload.text "a", Payload.text "b"] sessConnecting
    (by decide) (by decide)

/-- C2 (amended): at upstream-open the pending buffer is flushed first,
synchronously in the open handler, and the `session.update` configuration
message is transmitted only afterwards, by the delayed configuration
callback — strictly after every previously buffered payload, not before
them. -/
theorem config_sent_after_flush (parse : String → Option JsonMsg) (now : Nat) (s : Session)
    (hconf : s.sessionConfigured = false) :
    qwenSends (V11.runEvents parse now s [Event.qwenOpen, Event.configTimer]).2
      = s.messageBuffer.map Payload.text ++ [Payload.text (sessionConfigStr now)] := by
  have hflush := qwenOpen_flush now s
  simp only [V11.runEvents, V11.step, List.append_nil]
  rw [qwenSends_append, hflush.2.1]
  congr 1
  simp [V11.configTimerFire, V11.configureSession, hflush.2.2.1, hflush.2.2.2, hconf,
    qwenSends, List.filterMap_cons]

/-- C2 witness: concrete flush-then-configure trace. -/
theorem config_sent_after_flush_witness :
    qwenSends (V11.runEvents parseNever 7 sessOpenBuffered
        [Event.qwenOpen, Event.configTimer]).2
      = sessOpenBuffered.messageBuffer.map Payload.text
          ++ [Payload.text (sessionConfigStr 7)] :=
  config_sent_after_flush parseNever 7 sessOpenBuffered rfl

/-- The concrete upstream-send trace of an open event followed by its
delayed configuration callback, starting from a session holding one
buffered payload. -/
def c2Trace : List Payload :=
  qwenSends (V11.runEvents parseNever 7 sessOpenBuffered
    [Event.qwenOpen, Event.configTimer]).2

/-- C2 counterexample: for a session with a non-empty pending buffer at
upstream-open, the `session.update` configuration message is transmitted
strictly AFTER the buffered payload, not before it: the upstream trace is
the buffered payload followed by the configuration message, and the
configuration message is never sent before the buffered payload. -/
theorem config_not_before_flush :
    c2Trace = [Payload.text "hello", Payload.text (sessionConfigStr 7)]
    ∧ sentBefore c2Trace (Payload.text "hello") (Payload.text (sessionConfigStr 7))
    ∧ ¬ sentBefore c2Trace (Payload.text (sessionConfigStr 7)) (Payload.text "hello") := by
  have htr : c2Trace = [Payload.text "hello", Payload.text (sessionConfigStr 7)] := rfl
  refine ⟨htr, ⟨0, 1, Nat.zero_lt_one, rfl, rfl⟩, ?_⟩
  rintro ⟨i, j, hij, hi, hj⟩
  rw [htr] at hi hj
  rcases j with _ | _ | j
  · omega
  · exact absurd hj (by decide)
  · simp [List.get?] at hj

theorem connectCount_append (a b : List RelayAction) :
    connectCount (a ++ b) = connectCount a + connectCount b := by
  simp [connectCount, List.filter_append]

theorem connectCount_drainAll (l : List String) :
    connectCount (V11.drainAll l) = 0 := by
  induction l with
  | nil => rfl
  | cons m rest ih =>
      simp only [V11.drainAll, connectCount, List.filter_cons] at ih ⊢
      simpa using ih

/-- C5 (amended): the heartbeat issues exactly one reconnect attempt per
tick precisely when the client is open, the upstream socket is missing or
closed, and the inactivity timeout has not fired; but it is not the sole
source of connect attempts — the client-message handler also initiates one
precisely when the payload parses, the upstream is not open, and
`isQwenConnected` is false; no other event ever initiates a connect. -/
theorem reconnect_sources (parse : String → Option JsonMsg) (now : Nat) (s : Session) :
    (connectCount (V11.step parse now s Event.heartbeatTick).2
      = if ¬ now - s.lastActivity > 300000 ∧ s.clientReadyState = WsReadyState.OPEN ∧
            (s.qwenWs = none ∨ s.qwenWs = some WsReadyState.CLOSED) then 1 else 0)
    ∧ (∀ d : Payload, connectCount (V11.step parse now s (Event.clientMessage d)).2
      = if (parse (Payload.toStr d)).isSome = true ∧ s.qwenWs ≠ some WsReadyState.OPEN ∧
            s.isQwenConnected = false then 1 else 0)
    ∧ (∀ e : Event, e.isConnectSource = false →
        connectCount (V11.step parse now s e).2 = 0) := by
  refine ⟨?_, ?_, ?_⟩
  · split_ifs with h
    · obtain ⟨h1, h2, h3⟩ := h
      have h23 : s.clientReadyState = WsReadyState.OPEN ∧
          (s.qwenWs = none ∨ s.qwenWs = some WsReadyState.CLOSED) := ⟨h2, h3⟩
      simp only [V11.step, V11.heartbeatTick, if_neg h1, if_pos h23, V11.connectToQwen]
      rfl
    · by_cases h1 : now - s.lastActivity > 300000
      · simp only [V11.step, V11.heartbeatTick, if_pos h1]
        split_ifs <;> rfl
      · have h23 : ¬ (s.clientReadyState = WsReadyState.OPEN ∧
            (s.qwenWs = none ∨ s.qwenWs = some WsReadyState.CLOSED)) :=
          fun hc => h ⟨h1, hc⟩
        simp only [V11.step, V11.heartbeatTick, if_neg h1, if_neg h23]
        rfl
  · intro d
    split_ifs with h
    · obtain ⟨hsome, hw, hc⟩ := h
      obtain ⟨m, hp⟩ := Option.isSome_iff_exists.mp hsome
      simp only [V11.step, V11.clientMessage, hp]
      have hw1 : ({ s with lastActivity := now } : Session).qwenWs
          ≠ some WsReadyState.OPEN := hw
      rw [if_pos hw1]
      simp only [hc, eq_self_iff_true, if_true, V11.connectToQwen]
      rw [connectCount_append]
      split_ifs <;> rfl
    · cases hp : parse (Payload.toStr d) with
      | none => simp only [V11.step, V11.clientMessage, hp]; rfl
      | some m =>
          have hsome : (parse (Payload.toStr d)).isSome = true := by rw [hp]; rfl
          by_cases hw : s.qwenWs ≠ some WsReadyState.OPEN
          · have hc : ¬ s.isQwenConnected = false := fun hcc => h ⟨hsome, hw, hcc⟩
            have hc2 : s.isQwenConnected = true := by
              rcases Bool.eq_false_or_eq_true s.isQwenConnected with h0 | h0
              · exact h0
              · exact absurd h0 hc
            simp only [V11.step, V11.clientMessage, hp]
            have hw1 : ({ s with lastActivity := now } : Session).qwenWs
                ≠ some WsReadyState.OPEN := hw
            rw [if_pos hw1]
            simp only [hc2]
            rw [if_neg (by decide : ¬ (true = false)), connectCount_append]
            split_ifs <;> rfl
          · simp only [V11.step, V11.clientMessage, hp]
            have hw1 : ¬ ({ s with lastActivity := now } : Session).qwenWs
                ≠ some WsReadyState.OPEN := hw
            rw [if_neg hw1]
            split_ifs <;> rfl
  · intro e he
    cases e with
    | qwenOpen =>
        simp only [V11.step, V11.qwenOpen, V11.processBufferedMessages]
        split_ifs <;>
          (rw [connectCount_append, connectCount_append]; try rw [connectCount_drainAll]) <;>
            rfl
    | qwenMessage d =>
        cases hp : parse (Payload.toStr d) with
        | none => simp only [V11.step, V11.qwenMessage, hp]; split_ifs <;> rfl
        | some m => simp only [V11.step, V11.qwenMessage, hp]; split_ifs <;> rfl
    | qwenError err =>
        simp only [V11.step, V11.qwenError]
        split_ifs <;> rfl
    | qwenClose => rfl
    | clientMessage d => simp [Event.isConnectSource] at he
    | clientClose =>
        simp only [V11.step, V11.clientClose]
        split_ifs <;> rfl
    | clientError =>
        simp only [V11.step, V11.clientError]
        split_ifs <;> rfl
    | configTimer =>
        simp only [V11.step, V11.configTimerFire, V11.configureSession]
        split_ifs <;> rfl
    | deferredSend d =>
        simp only [V11.step, V11.deferredSendFire]
        split_ifs <;> rfl
    | heartbeatTick => simp [Event.isConnectSource] at he

/-- C5 witness: an upstream open event initiates no connect attempt. -/
theorem reconnect_sources_witness :
    connectCount (V11.step parsePlain 0 sessConnecting Event.qwenOpen).2 = 0 :=
  (reconnect_sources parsePlain 0 sessConnecting).2.2 Event.qwenOpen rfl

/-- C5 counterexample: with the upstream closed and the client open, the
client-message handler itself initiates a reconnect, and the heartbeat
tick initiates another — so reconnects do not originate solely from the
liveness monitor, and more than one attempt can occur within a single
liveness-check interval. -/
theorem message_path_initiates_reconnect :
    RelayAction.connectQwen ∈
      (V11.step parsePlain 0 sessClosedUpstream
        (Event.clientMessage (Payload.text "m"))).2
    ∧ connectCount (V11.step parsePlain 0 sessClosedUpstream Event.heartbeatTick).2 = 1 :=
  ⟨by decide, rfl⟩

theorem mem_drainAll_iff (a : RelayAction) (l : List String) :
    a ∈ V11.drainAll l ↔ ∃ x ∈ l, a = RelayAction.sendQwen (Payload.text x) := by
  induction l with
  | nil => simp [V11.drainAll]
  | cons x rest ih =>
      simp only [V11.drainAll, List.mem_cons, ih]
      constructor
      · rintro (rfl | ⟨y, hy, rfl⟩)
        · exact ⟨x, Or.inl rfl, rfl⟩
        · exact ⟨y, Or.inr hy, rfl⟩
      · rintro ⟨y, hy | hy, rfl⟩
        · subst hy; exact Or.inl rfl
        · exact Or.inr ⟨y, hy, rfl⟩

/-- C9 (amended): every proxy-originated message the improved server sends
to the client has one of the three fixed shapes with no additional fields
and an error code in the allowed set; its unauthorized classification is a
fixed sanitized string that is independent of the raw error and does not
contain the hardcoded credential.  (The original `src/server.js` violates
the fixed shapes — its error messages carry an extra `details` field
holding the raw internal error string verbatim and its not-ready reply
carries an extra `readyState` field — see the counterexample.) -/
theorem v11_proxy_message_shapes (parse : String → Option JsonMsg) (now : Nat) (s : Session)
    (e : Event) :
    (∀ m : ClientMsgShape, RelayAction.sendClientMsg m ∈ (V11.step parse now s e).2 →
        specShapeOk m = true)
    ∧ (∀ err : String,
        containsSubstr err "401" = true ∨ containsSubstr err "Unauthorized" = true →
        V11.classifyError err = "API密钥无效，请检查配置")
    ∧ containsSubstr "API密钥无效，请检查配置" fallbackKey = false := by
  refine ⟨?_, ?_, by decide⟩
  · intro m hm
    cases e with
    | qwenOpen =>
        simp only [V11.step, V11.qwenOpen, V11.processBufferedMessages] at hm
        split_ifs at hm <;> simp [mem_drainAll_iff] at hm <;> (subst hm; rfl)
    | qwenMessage d =>
        simp only [V11.step, V11.qwenMessage] at hm
        cases hp : parse (Payload.toStr d) with
        | none =>
            rw [hp] at hm
            split_ifs at hm <;> simp at hm
        | some msg =>
            rw [hp] at hm
            dsimp only at hm
            by_cases ht : msg.type = some "session.updated"
            · rw [if_pos ht] at hm
              dsimp only at hm
              split_ifs at hm <;> simp at hm
            · rw [if_neg ht] at hm
              dsimp only at hm
              split_ifs at hm <;> simp at hm
    | qwenError err =>
        simp only [V11.step, V11.qwenError] at hm
        split_ifs at hm <;> simp at hm
        subst hm; rfl
    | qwenClose => simp [V11.step, V11.qwenClose] at hm
    | clientMessage d =>
        simp only [V11.step, V11.clientMessage] at hm
        cases hp : parse (Payload.toStr d) with
        | none => rw [hp] at hm; simp at hm
        | some msg =>
            rw [hp] at hm
            dsimp only at hm
            by_cases hw : s.qwenWs ≠ some WsReadyState.OPEN
            · rw [if_pos hw] at hm
              by_cases hc : s.isQwenConnected = false
              · rw [if_pos hc] at hm
                simp only [V11.connectToQwen] at hm
                try dsimp only at hm
                split_ifs at hm <;> simp at hm <;> (subst hm; rfl)
              · rw [if_neg hc] at hm
                try dsimp only at hm
                split_ifs at hm <;> simp at hm <;> (subst hm; rfl)
            · rw [if_neg hw] at hm
              try dsimp only at hm
              by_cases hd : s.sessionConfigured = false ∧ msg.type ≠ some "session.update"
              · rw [if_pos hd] at hm
                simp at hm
              · rw [if_neg hd] at hm
                simp at hm
    | clientClose =>
        simp only [V11.step, V11.clientClose] at hm
        split_ifs at hm <;> simp at hm
    | clientError =>
        simp only [V11.step, V11.clientError] at hm
        split_ifs at hm <;> simp at hm
    | configTimer =>
        simp only [V11.step, V11.configTimerFire, V11.configureSession] at hm
        split_ifs at hm <;> simp at hm
    | deferredSend d =>
        simp only [V11.step, V11.deferredSendFire] at hm
        split_ifs at hm <;> simp at hm
    | heartbeatTick =>
        simp only [V11.step, V11.heartbeatTick, V11.connectToQwen] at hm
        split_ifs at hm <;> simp at hm
  · intro err herr
    rcases herr with h | h <;> simp [V11.classifyError, h]

/-- C9 witness: a concrete upstream error produces a fixed-shape error
message, and a concrete unauthorized error string classifies to the fixed
sanitized message. -/
theorem v11_proxy_message_shapes_witness :
    specShapeOk (ClientMsgShape.errorMsg
      ⟨V11.classifyError "boom", "QWEN_ERROR", none, none⟩) = true
    ∧ V11.classifyError "Unauthorized token" = "API密钥无效，请检查配置" :=
  ⟨(v11_proxy_message_shapes parsePlain 0 sessOpenConfigured (Event.qwenError "boom")).1
      (ClientMsgShape.errorMsg ⟨V11.classifyError "boom", "QWEN_ERROR", none, none⟩)
      (by simp [V11.step, V11.qwenError, sessOpenConfigured]),
   (v11_proxy_message_shapes parsePlain 0 sessOpenConfigured (Event.qwenError "boom")).2.1
      "Unauthorized token" (Or.inr (by decide))⟩

/-- C9 counterexample: the original `src/server.js` violates the claimed
fixed shapes — its upstream-error message to the client carries an extra
`details` field holding the raw internal error string verbatim, and its
not-ready reply carries an extra `readyState` field. -/
theorem v10_error_shape_violation :
    specShapeOk (V10.qwenErrorMsg "Unauthorized") = false
    ∧ V10.qwenErrorMsg "Unauthorized"
        = ClientMsgShape.errorMsg ⟨"API Key 无效或已过期，请检查API密钥", "PROXY_ERROR",
            some "Unauthorized", none⟩
    ∧ V10.notReadyMsg 3
        = ClientMsgShape.errorMsg ⟨"Qwen API 连接未就绪，请稍后重试", "NOT_READY",
            none, some 3⟩
    ∧ specShapeOk (V10.notReadyMsg 3) = false :=
  ⟨by decide, by decide, rfl, by decide⟩

/-- C10: a client message that is buffered is stored and later transmitted
upstream as the string coercion of the received data (a text frame), while
the direct pass-through path sends the data exactly as received; hence a
binary client message delivered via the buffered path is not forwarded
byte-for-byte identical to the input.  The client handler of the original
server queues `data.toString()` while connecting and forwards `data`
as received when open, in the same way. -/
theorem buffered_path_string_coercion (parse : String → Option JsonMsg) (now : Nat)
    (d : Payload) (s : Session) (hparse : (parse (Payload.toStr d)).isSome = true) :
    (s.qwenWs ≠ some WsReadyState.OPEN → s.messageBuffer = [] →
      qwenSends (V11.runEvents parse now s
          [Event.clientMessage d, Event.qwenOpen]).2
        = [Payload.text (Payload.toStr d)])
    ∧ (s.qwenWs = some WsReadyState.OPEN → s.sessionConfigured = true →
      (V11.step parse now s (Event.clientMessage d)).2 = [RelayAction.sendQwen d])
    ∧ (∀ bs : List Nat, Payload.text (Payload.toStr (Payload.binary bs)) ≠ Payload.binary bs)
    ∧ (∀ q : List String, V10.clientForward WsReadyState.CONNECTING q d
        = (q ++ [Payload.toStr d], []))
    ∧ (∀ q : List String, V10.clientForward WsReadyState.OPEN q d
        = (q, [RelayAction.sendQwen d])) := by
  refine ⟨?_, ?_, ?_, ?_, ?_⟩
  · intro hopen hbuf
    have h1 := clientMessage_buffering parse now d s hopen hparse
    have h2 := qwenOpen_flush now (V11.clientMessage parse now d s).1
    show qwenSends ((V11.clientMessage parse now d s).2 ++
        ((V11.qwenOpen now (V11.clientMessage parse now d s).1).2 ++ [])) = _
    rw [List.append_nil, qwenSends_append, h1.2.2, h2.2.1, h1.1, hbuf]
    rfl
  · intro hw hsc
    obtain ⟨m, hp⟩ := Option.isSome_iff_exists.mp hparse
    simp only [V11.step, V11.clientMessage, hp]
    rw [if_neg (show ¬ ({ s with lastActivity := now } : Session).qwenWs
        ≠ some WsReadyState.OPEN from by simp [hw])]
    rw [if_neg (show ¬ (({ s with lastActivity := now } : Session).sessionConfigured = false
        ∧ m.type ≠ some "session.update") from by simp [hsc])]
  · intro bs h; cases h
  · intro q; simp [V10.clientForward, Payload.toStr]
  · intro q; simp [V10.clientForward]

/-- C10 witness: a concrete binary client frame buffered while connecting
is flushed upstream as a text frame that differs from the original binary
frame, while a direct forward would send it unchanged. -/
theorem buffered_path_string_coercion_witness :
    qwenSends (V11.runEvents parsePlain 0 sessConnecting
        [Event.clientMessage (Payload.binary [104, 105]), Event.qwenOpen]).2
      = [Payload.text (Payload.toStr (Payload.binary [104, 105]))]
    ∧ Payload.text (Payload.toStr (Payload.binary [104, 105]))
        ≠ Payload.binary [104, 105]
    ∧ V10.clientForward WsReadyState.OPEN []
        (Payload.binary [104, 105])
        = ([], [RelayAction.sendQwen (Payload.binary [104, 105])]) :=
  ⟨(buffered_path_string_coercion parsePlain 0 (Payload.binary [104, 105]) sessConnecting
      rfl).1 (by decide) rfl,
   (buffered_path_string_coercion parsePlain 0 (Payload.binary [104, 105]) sessConnecting
      rfl).2.2.1 [104, 105],
   (buffered_path_string_coercion parsePlain 0 (Payload.binary [104, 105]) sessConnecting
      rfl).2.2.2.2 []⟩
